import Mathlib

/-!
Shallow embedding of `src/data_pipeline.py` (ingestion pipeline of the
automated-data-workflow repository): fetch with bounded retry, schema
validation, quality filtering with per-rule metrics, idempotency guard,
storage, and the orchestrator, together with theorems settling the
frozen claims about this program.

Modelling conventions:
- A raw JSON product record is modelled by `RawRecord`: each of the six
  flattened columns that `pd.json_normalize` can produce for it is an
  `Option` field (`none` = the key is absent / the cell is NaN), plus
  `extra`, the names of any additional flattened keys the record carries
  (the code ignores their values everywhere).
- Numeric cells are `Rat` (the floats of the source carry decimal values;
  all the source does with them is compare against decimal constants).
- The SQLite database behind `DB_PATH` is `Option (List CleanRecord)`:
  `none` = the table does not exist yet, `some rows` = the table rows in
  insertion order (the writer only appends).
- Effects are explicit: the network is a function from attempt number to
  that attempt's outcome, `datetime.now().strftime` is a `today` string
  parameter, a `to_sql` write either succeeds or raises after landing a
  prefix of the batch (`WriteOutcome`), and raising an exception is an
  `Except`/`Option String` value threaded to the caller.
-/

/-- The six flattened columns the pipeline selects (`REQUIRED_FIELDS`),
as they appear on one record; `none` models an absent key or NaN cell. -/
structure Product where
  id : Option Int
  title : Option String
  category : Option String
  price : Option Rat
  rating_rate : Option Rat
  rating_count : Option Int
deriving DecidableEq, Repr

/-- A raw fetched record: the six known columns plus the names of any
extra flattened keys present on the record (values ignored by the code). -/
structure RawRecord where
  id : Option Int
  title : Option String
  category : Option String
  price : Option Rat
  rating_rate : Option Rat
  rating_count : Option Int
  extra : List String
deriving DecidableEq, Repr

/-- `df = df[REQUIRED_FIELDS]`: keep the six selected columns only. -/
def toProduct (r : RawRecord) : Product :=
  ⟨r.id, r.title, r.category, r.price, r.rating_rate, r.rating_count⟩

/-- A stored/clean row: the six columns plus the stamped `fetch_date`. -/
structure CleanRecord where
  product : Product
  fetch_date : String
deriving DecidableEq, Repr

/-- The metrics dict built by `clean_and_validate_data`. -/
structure Metrics where
  raw_records : Nat
  invalid_price : Nat
  invalid_category : Nat
  invalid_rating : Nat
  duplicates_removed : Nat
  clean_records : Nat
deriving DecidableEq, Repr

/-- Filter 1 mask: `(df['price'] <= 0) | (df['price'].isna())`. -/
def invalidPrice (p : Product) : Bool :=
  match p.price with
  | none => true
  | some x => decide (x ≤ 0)

/-- Python's `str.strip()`: drop leading and trailing whitespace. -/
def pyStrip (s : String) : String :=
  ⟨((s.data.dropWhile Char.isWhitespace).reverse.dropWhile Char.isWhitespace).reverse⟩

/-- Filter 2 mask: `(df['category'].isna()) | (df['category'].str.strip() == '')`. -/
def invalidCategory (p : Product) : Bool :=
  match p.category with
  | none => true
  | some c => pyStrip c == ""

/-- Filter 3 mask: `(df['rating.rate'] < 0) | (df['rating.rate'] > 5) | (isna)`. -/
def invalidRating (p : Product) : Bool :=
  match p.rating_rate with
  | none => true
  | some x => decide (x < 0) || decide (5 < x)

/-- `df.duplicated(subset=['id'], keep='first').sum()`: number of rows whose
`id` already occurred on an earlier row (`seen` holds the ids of earlier
first occurrences; pandas treats NaN ids as equal to each other, as does
`Option Int` equality). -/
def dupMarkCount (seen : List (Option Int)) : List Product → Nat
  | [] => 0
  | p :: ps =>
      if p.id ∈ seen then 1 + dupMarkCount seen ps
      else dupMarkCount (p.id :: seen) ps

/-- `df.drop_duplicates(subset=['id'], keep='first')`: keep the first row
of each `id`, preserving order. -/
def dropDupId (seen : List (Option Int)) : List Product → List Product
  | [] => []
  | p :: ps =>
      if p.id ∈ seen then dropDupId seen ps
      else p :: dropDupId (p.id :: seen) ps

/-- `clean_and_validate_data`: select the six columns, stamp `fetch_date`
with today's date, apply the four quality filters in order (price,
category, rating, duplicate-id), counting each rule's rejections on the
rows that reached it, and return the surviving rows with the metrics.
The constant `fetch_date` column rides along unchanged through the
filters, so the rows are stamped on output. -/
def clean_and_validate_data (today : String) (data : List RawRecord) :
    List CleanRecord × Metrics :=
  let df := data.map toProduct
  let original_count := df.length
  let ip := df.countP invalidPrice
  let df1 := df.filter (fun p => !invalidPrice p)
  let ic := df1.countP invalidCategory
  let df2 := df1.filter (fun p => !invalidCategory p)
  let ir := df2.countP invalidRating
  let df3 := df2.filter (fun p => !invalidRating p)
  let dups := dupMarkCount [] df3
  let df4 := dropDupId [] df3
  (df4.map (fun p => ⟨p, today⟩),
    ⟨original_count, ip, ic, ir, dups, df4.length⟩)

/-- The flattened field set `set(pd.json_normalize(data[0:1]).columns)` of
one record: the known columns whose key is present, plus the extra keys. -/
def presentFields (r : RawRecord) : List String :=
  (if r.id.isSome then ["id"] else []) ++
  (if r.title.isSome then ["title"] else []) ++
  (if r.category.isSome then ["category"] else []) ++
  (if r.price.isSome then ["price"] else []) ++
  (if r.rating_rate.isSome then ["rating.rate"] else []) ++
  (if r.rating_count.isSome then ["rating.count"] else []) ++
  r.extra

/-- `validate_schema`: false on an empty batch; otherwise flatten the
first record only and require every required field to be present. -/
def validate_schema (data : List RawRecord) (required_fields : List String) : Bool :=
  match data with
  | [] => false
  | r :: _ => required_fields.all (fun f => f ∈ presentFields r)

/-- `REQUIRED_FIELDS` from the configuration block. -/
def REQUIRED_FIELDS : List String :=
  ["id", "title", "category", "price", "rating.rate", "rating.count"]

/-- `MAX_RETRIES` from the configuration block. -/
def MAX_RETRIES : Nat := 3

/-- What one `requests.get` attempt does: return parsed data, or hit one
of the retried transient failures, or return a body that is not JSON
(`ValueError` from `response.json()`). -/
inductive Outcome where
  | ok (data : List RawRecord)
  | timeout
  | httpError
  | requestError
  | badJson
deriving DecidableEq

/-- The retried (transient) attempt outcomes. -/
def isTransient : Outcome → Bool
  | .ok _ => false
  | .badJson => false
  | _ => true

/-- The two fatal outcomes of `fetch_data_from_api`: the final
`RuntimeError` (carrying the configured attempt budget) and the re-raised
JSON parse `ValueError`. -/
inductive FetchErr where
  | exhausted (attempts : Nat)
  | malformed
deriving DecidableEq

/-- Human-readable message, as `str(e)` of the raised exception. -/
def fetchErrMsg : FetchErr → String
  | .exhausted n => "API fetch failed after " ++ toString n ++ " attempts"
  | .malformed => "Invalid JSON response"

/-- The retry loop of `fetch_data_from_api`: `attempt` is the current
attempt number, `fuel` the attempts left in `range(1, max_retries + 1)`.
Returns the result together with the number of requests performed. -/
def fetchLoop (net : Nat → Outcome) (max_retries : Nat) :
    Nat → Nat → Except FetchErr (List RawRecord) × Nat
  | _, 0 => (.error (.exhausted max_retries), 0)
  | attempt, fuel + 1 =>
      match net attempt with
      | .ok data => (.ok data, 1)
      | .badJson => (.error .malformed, 1)
      | _ =>
          let r := fetchLoop net max_retries (attempt + 1) fuel
          (r.1, r.2 + 1)

/-- `fetch_data_from_api(url, max_retries)`: run the retry loop from
attempt 1; also report how many requests were performed. -/
def fetch_data_from_api (net : Nat → Outcome) (max_retries : Nat) :
    Except FetchErr (List RawRecord) × Nat :=
  fetchLoop net max_retries 1 max_retries

/-- The SQLite table behind `DB_PATH`: `none` = table absent. -/
abbrev DB : Type := Option (List CleanRecord)

/-- `check_already_ingested_today`: false when the table does not exist;
otherwise count the rows whose `fetch_date` equals today and report
whether the count is positive. -/
def check_already_ingested_today (db : DB) (today : String) : Bool :=
  match db with
  | none => false
  | some rows =>
      if 0 < rows.countP (fun r => r.fetch_date == today) then true else false

/-- Whether the `df.to_sql(...)` append succeeds, or raises after landing
only the first `k` rows (a mid-write storage failure). -/
inductive WriteOutcome where
  | success
  | failAfter (k : Nat)
deriving DecidableEq

/-- Connection lifecycle events of the storage stage. -/
inductive ConnEvent where
  | connect
  | close
deriving DecidableEq

/-- `store_data`: open the connection, then inside `try`: return 0 when
the idempotency guard fires, otherwise append the batch (a failing append
raises after landing a prefix); the `finally` closes the connection on
every path. Returns (result-or-exception, new table state, connection
event trace). -/
def store_data (db : DB) (df : List CleanRecord) (today : String)
    (w : WriteOutcome) : Except String Nat × DB × List ConnEvent :=
  let body : Except String Nat × DB :=
    if check_already_ingested_today db today then
      (.ok 0, db)
    else
      match w with
      | .success => (.ok df.length, some ((Option.getD db []) ++ df))
      | .failAfter k => (.error "StorageFailure",
          some ((Option.getD db []) ++ df.take k))
  (body.1, body.2, [ConnEvent.connect, ConnEvent.close])

/-- Per-record attribution of the sequential narrowing: the first quality
rule (in the fixed order price, category, rating, duplicate) that rejects
the record, or `clean` if none does. -/
inductive Reason where
  | price
  | category
  | rating
  | duplicate
  | clean
deriving DecidableEq, Repr

/-- Classify each record of the batch by the first rule that rejects it;
`seen` holds the ids of the clean records kept so far (the rows against
which the duplicate rule compares). -/
def classifyAux (seen : List (Option Int)) : List Product → List Reason
  | [] => []
  | p :: ps =>
      if invalidPrice p then Reason.price :: classifyAux seen ps
      else if invalidCategory p then Reason.category :: classifyAux seen ps
      else if invalidRating p then Reason.rating :: classifyAux seen ps
      else if p.id ∈ seen then Reason.duplicate :: classifyAux seen ps
      else Reason.clean :: classifyAux (p.id :: seen) ps

/-- Classification of a whole batch, starting from no seen ids. -/
def classify (ps : List Product) : List Reason := classifyAux [] ps

/-- `status` values of the pipeline result dict. -/
inductive Status where
  | SUCCESS
  | SKIPPED
  | FAILED
deriving DecidableEq, Repr

/-- The result dict built by `run_pipeline` (timestamp omitted;
`quality_metrics = none` models the initial empty dict). -/
structure PipelineResult where
  status : Status
  records_fetched : Nat
  records_stored : Nat
  quality_metrics : Option Metrics
  error_message : Option String
deriving DecidableEq, Repr

/-- `run_pipeline`: fetch, validate schema, clean, store, then set the
final status; any exception is recorded in the result (`status = FAILED`,
`error_message = str(e)`) and re-raised. Returns (result, new table
state, re-raised exception if any). -/
def run_pipeline (net : Nat → Outcome) (today : String) (db : DB)
    (w : WriteOutcome) : PipelineResult × DB × Option String :=
  match (fetch_data_from_api net MAX_RETRIES).1 with
  | .error e =>
      let msg := fetchErrMsg e
      (⟨.FAILED, 0, 0, none, some msg⟩, db, some msg)
  | .ok raw_data =>
      let fetched := raw_data.length
      if validate_schema raw_data REQUIRED_FIELDS then
        let cleaned := clean_and_validate_data today raw_data
        let stored := store_data db cleaned.1 today w
        match stored.1 with
        | .error e =>
            (⟨.FAILED, fetched, 0, some cleaned.2, some e⟩, stored.2.1, some e)
        | .ok n =>
            (⟨if 0 < n then .SUCCESS else .SKIPPED, fetched, n,
              some cleaned.2, none⟩, stored.2.1, none)
      else
        let msg := "Schema validation failed - API structure may have changed"
        (⟨.FAILED, fetched, 0, none, some msg⟩, db, some msg)

/-- The spec's end-to-end record `{id:1, price:10, category:"a", rating_rate:4.5}`. -/
def e2eRec1 : RawRecord :=
  ⟨some 1, none, some "a", some 10, some (mkRat 9 2), none, []⟩

/-- The spec's end-to-end record `{id:2, price:-5, category:"b", rating_rate:2}`. -/
def e2eRec2 : RawRecord :=
  ⟨some 2, none, some "b", some (-5), some 2, none, []⟩

/-- A record with id 1 and an invalid (negative) price. -/
def dupBadPrice : RawRecord :=
  ⟨some 1, none, some "a", some (-5), some 2, none, []⟩

/-- A fully valid record with id 1 and all six fields present. -/
def dupGood : RawRecord :=
  ⟨some 1, some "t", some "a", some 10, some 2, some 3, []⟩

/-- A record like dupGood but with the `title` key removed. -/
def missingTitle : RawRecord :=
  ⟨some 1, none, some "a", some 10, some 2, some 3, []⟩

/-- A record with the same present fields as dupGood but other values. -/
def dupGoodOtherValues : RawRecord :=
  ⟨some 9, some "u", some "c", some 20, some 1, some 7, []⟩

/-- A stored row for the period "2025-01-01". -/
def storedRow : CleanRecord := ⟨toProduct dupGood, "2025-01-01"⟩

/-- A network that times out on attempt 1 and succeeds on attempt 2. -/
def netOkAt2 : Nat → Outcome :=
  fun n => if n = 2 then Outcome.ok [e2eRec1] else Outcome.timeout

/-- A network that times out on every attempt. -/
def netAllDown : Nat → Outcome := fun _ => Outcome.timeout

/-- A network that times out on attempt 1 and returns a non-JSON body on
attempt 2. -/
def netBadAt2 : Nat → Outcome :=
  fun n => if n = 2 then Outcome.badJson else Outcome.timeout

/-- A network that returns one fully valid record on every attempt. -/
def netRunOk : Nat → Outcome := fun _ => Outcome.ok [dupGood]

/-! ## Counting lemmas for the quality filter -/

/-- A mask's True count plus the surviving rows equals the rows given to it. -/
theorem countP_add_length_filter_not (p : α → Bool) (l : List α) :
    l.countP p + (l.filter (fun a => !p a)).length = l.length := by
  induction l with
  | nil => rfl
  | cons a l ih =>
    by_cases h : p a <;> simp [List.countP_cons, List.filter_cons, h] <;> omega

/-- Rows marked duplicated plus rows kept by `drop_duplicates` equal all rows. -/
theorem dupMarkCount_add_length_dropDupId (seen : List (Option Int))
    (l : List Product) :
    dupMarkCount seen l + (dropDupId seen l).length = l.length := by
  induction l generalizing seen with
  | nil => rfl
  | cons p ps ih =>
    by_cases h : p.id ∈ seen <;>
      simp only [dupMarkCount, dropDupId, h, if_true, if_false,
        List.length_cons, ite_true, ite_false]
    · have := ih seen
      omega
    · have := ih (p.id :: seen)
      omega

/-- The classification assigns one reason per input record. -/
theorem classifyAux_length (seen : List (Option Int)) (l : List Product) :
    (classifyAux seen l).length = l.length := by
  induction l generalizing seen with
  | nil => rfl
  | cons p ps ih =>
    simp only [classifyAux]
    by_cases h1 : invalidPrice p <;> by_cases h2 : invalidCategory p <;>
      by_cases h3 : invalidRating p <;> by_cases h4 : p.id ∈ seen <;>
      simp [h1, h2, h3, h4, ih]

/-- Records classified `price` are exactly the rows filter 1 rejects. -/
theorem classifyAux_count_price (seen : List (Option Int)) (l : List Product) :
    (classifyAux seen l).count Reason.price = l.countP invalidPrice := by
  induction l generalizing seen with
  | nil => rfl
  | cons p ps ih =>
    simp only [classifyAux, List.countP_cons]
    by_cases h1 : invalidPrice p <;> by_cases h2 : invalidCategory p <;>
      by_cases h3 : invalidRating p <;> by_cases h4 : p.id ∈ seen <;>
      simp [h1, h2, h3, h4, ih, List.count_cons]

/-- Records classified `category` are exactly the rows filter 2 rejects
among those that survived filter 1. -/
theorem classifyAux_count_category (seen : List (Option Int)) (l : List Product) :
    (classifyAux seen l).count Reason.category =
      (l.filter (fun p => !invalidPrice p)).countP invalidCategory := by
  induction l generalizing seen with
  | nil => rfl
  | cons p ps ih =>
    simp only [classifyAux, List.filter_cons]
    by_cases h1 : invalidPrice p <;> by_cases h2 : invalidCategory p <;>
      by_cases h3 : invalidRating p <;> by_cases h4 : p.id ∈ seen <;>
      simp [h1, h2, h3, h4, ih, List.count_cons, List.countP_cons]

/-- Records classified `rating` are exactly the rows filter 3 rejects
among those that survived filters 1 and 2. -/
theorem classifyAux_count_rating (seen : List (Option Int)) (l : List Product) :
    (classifyAux seen l).count Reason.rating =
      ((l.filter (fun p => !invalidPrice p)).filter
        (fun p => !invalidCategory p)).countP invalidRating := by
  induction l generalizing seen with
  | nil => rfl
  | cons p ps ih =>
    simp only [classifyAux, List.filter_cons]
    by_cases h1 : invalidPrice p <;> by_cases h2 : invalidCategory p <;>
      by_cases h3 : invalidRating p <;> by_cases h4 : p.id ∈ seen <;>
      simp [h1, h2, h3, h4, ih, List.count_cons, List.countP_cons]

/-- Records classified `duplicate` are exactly the rows the duplicate mask
marks among those that survived filters 1 to 3. -/
theorem classifyAux_count_duplicate (seen : List (Option Int)) (l : List Product) :
    (classifyAux seen l).count Reason.duplicate =
      dupMarkCount seen (((l.filter (fun p => !invalidPrice p)).filter
        (fun p => !invalidCategory p)).filter (fun p => !invalidRating p)) := by
  induction l generalizing seen with
  | nil => rfl
  | cons p ps ih =>
    simp only [classifyAux, List.filter_cons]
    by_cases h1 : invalidPrice p <;> by_cases h2 : invalidCategory p <;>
      by_cases h3 : invalidRating p <;> by_cases h4 : p.id ∈ seen <;>
      simp [h1, h2, h3, h4, ih, List.count_cons, dupMarkCount] <;> omega

/-- Records classified `clean` are exactly the rows `drop_duplicates`
keeps among those that survived filters 1 to 3. -/
theorem classifyAux_count_clean (seen : List (Option Int)) (l : List Product) :
    (classifyAux seen l).count Reason.clean =
      (dropDupId seen (((l.filter (fun p => !invalidPrice p)).filter
        (fun p => !invalidCategory p)).filter (fun p => !invalidRating p))).length := by
  induction l generalizing seen with
  | nil => rfl
  | cons p ps ih =>
    simp only [classifyAux, List.filter_cons]
    by_cases h1 : invalidPrice p <;> by_cases h2 : invalidCategory p <;>
      by_cases h3 : invalidRating p <;> by_cases h4 : p.id ∈ seen <;>
      simp [h1, h2, h3, h4, ih, List.count_cons, dropDupId] <;> omega

/-- C1: on the raw batch [{id:1,price:10,category:"a",rating_rate:4.5},
{id:1,price:10,category:"a",rating_rate:4.5},{id:2,price:-5,category:"b",
rating_rate:2}], the quality filter returns exactly one clean record (the
first occurrence of id 1) and the metrics {raw_records:3, invalid_price:1,
invalid_category:0, invalid_rating:0, duplicates_removed:1,
clean_records:1}. -/
theorem clean_end_to_end_example (today : String) :
    clean_and_validate_data today [e2eRec1, e2eRec1, e2eRec2] =
      ([⟨toProduct e2eRec1, today⟩], ⟨3, 1, 0, 0, 1, 1⟩) := rfl

/-- C2: the quality filter applies the four rules in the fixed order
price, category, rating, duplicate, each rule narrowing the batch before
the next, and the metrics count each record of the batch under exactly
one reason, namely the first rule that rejects it: the classification
assigns one reason per record and every metric counter equals the number
of records bearing the corresponding reason. -/
theorem clean_metrics_first_rejecting_rule (today : String) (data : List RawRecord) :
    (classify (data.map toProduct)).length = data.length ∧
    (clean_and_validate_data today data).2.raw_records = data.length ∧
    (clean_and_validate_data today data).2.invalid_price =
      (classify (data.map toProduct)).count Reason.price ∧
    (clean_and_validate_data today data).2.invalid_category =
      (classify (data.map toProduct)).count Reason.category ∧
    (clean_and_validate_data today data).2.invalid_rating =
      (classify (data.map toProduct)).count Reason.rating ∧
    (clean_and_validate_data today data).2.duplicates_removed =
      (classify (data.map toProduct)).count Reason.duplicate ∧
    (clean_and_validate_data today data).2.clean_records =
      (classify (data.map toProduct)).count Reason.clean := by
  refine ⟨?_, ?_, ?_, ?_, ?_, ?_, ?_⟩ <;>
    simp [clean_and_validate_data, classify, classifyAux_length,
      classifyAux_count_price, classifyAux_count_category,
      classifyAux_count_rating, classifyAux_count_duplicate,
      classifyAux_count_clean]

/-- C10: for every input batch, the metrics satisfy
raw_records = invalid_price + invalid_category + invalid_rating +
duplicates_removed + clean_records exactly. -/
theorem clean_metrics_conservation (today : String) (data : List RawRecord) :
    (clean_and_validate_data today data).2.raw_records =
      (clean_and_validate_data today data).2.invalid_price +
      (clean_and_validate_data today data).2.invalid_category +
      (clean_and_validate_data today data).2.invalid_rating +
      (clean_and_validate_data today data).2.duplicates_removed +
      (clean_and_validate_data today data).2.clean_records := by
  have h1 := countP_add_length_filter_not invalidPrice (data.map toProduct)
  have h2 := countP_add_length_filter_not invalidCategory
    ((data.map toProduct).filter (fun p => !invalidPrice p))
  have h3 := countP_add_length_filter_not invalidRating
    (((data.map toProduct).filter (fun p => !invalidPrice p)).filter
      (fun p => !invalidCategory p))
  have h4 := dupMarkCount_add_length_dropDupId []
    ((((data.map toProduct).filter (fun p => !invalidPrice p)).filter
      (fun p => !invalidCategory p)).filter (fun p => !invalidRating p))
  simp only [clean_and_validate_data]
  omega

/-- `drop_duplicates(subset=['id'], keep='first')` keeps exactly one row
per id: the count of an id among the kept rows is 1 if the id occurs in
the input (and is not suppressed by `seen`), else 0. -/
theorem count_map_id_dropDupId (seen : List (Option Int)) (l : List Product)
    (i : Option Int) :
    ((dropDupId seen l).map Product.id).count i =
      if i ∈ seen then 0 else if i ∈ l.map Product.id then 1 else 0 := by
  induction l generalizing seen with
  | nil => simp [dropDupId]
  | cons p ps ih =>
    by_cases h : p.id ∈ seen
    · rw [dropDupId, if_pos h, ih]
      by_cases hi : i ∈ seen
      · simp [hi]
      · have hip : ¬ i = p.id := fun e => hi (e ▸ h)
        simp [hi, hip]
    · rw [dropDupId, if_neg h]
      simp only [List.map_cons, List.count_cons, ih (p.id :: seen)]
      by_cases hip : i = p.id
      · subst hip
        simp [h]
      · have hpi : ¬ p.id = i := fun e => hip e.symm
        by_cases hi : i ∈ seen <;> simp [hi, hip, hpi, List.mem_cons]

/-- C3 counterexample: in the batch [dupBadPrice, dupGood] the id 1 occurs
twice, so the batch has one repeated occurrence after the first, yet the
filter reports duplicates_removed = 0: the first occurrence was already
rejected by the price rule, and the duplicate rule only sees the
remaining batch. -/
theorem dup_metric_not_batch_repeats :
    ([dupBadPrice, dupGood].map RawRecord.id) = [some 1, some 1] ∧
    dupMarkCount [] ([dupBadPrice, dupGood].map toProduct) = 1 ∧
    (clean_and_validate_data "2025-01-01"
      [dupBadPrice, dupGood]).2.duplicates_removed = 0 := by
  decide


/-- The rows kept by `drop_duplicates(subset=['id'], keep='first')` are
counted by the distinct ids of the input not suppressed by `seen`. -/
theorem length_dropDupId_eq_card (seen : List (Option Int)) (l : List Product) :
    (dropDupId seen l).length =
      ((l.map Product.id).toFinset \ seen.toFinset).card := by
  induction l generalizing seen with
  | nil => simp [dropDupId]
  | cons p ps ih =>
    by_cases h : p.id ∈ seen
    · rw [dropDupId, if_pos h, ih]
      have hm : p.id ∈ seen.toFinset := List.mem_toFinset.mpr h
      simp [Finset.insert_sdiff_of_mem _ hm]
    · rw [dropDupId, if_neg h]
      have hns : p.id ∉ seen.toFinset := fun hm => h (List.mem_toFinset.mp hm)
      have hsd : ((p :: ps).map Product.id).toFinset \ seen.toFinset =
          insert p.id ((ps.map Product.id).toFinset \ seen.toFinset) := by
        ext a
        by_cases ha : a = p.id <;>
          simp [ha, hns, Finset.mem_sdiff, List.mem_toFinset]
      rw [hsd]
      have hih := ih (p.id :: seen)
      have hins : (p.id :: seen).toFinset = insert p.id seen.toFinset := by
        simp
      rw [hins] at hih
      have herase : (ps.map Product.id).toFinset \ insert p.id seen.toFinset =
          ((ps.map Product.id).toFinset \ seen.toFinset).erase p.id := by
        ext a
        by_cases ha : a = p.id <;> simp [ha, Finset.mem_sdiff]
      rw [herase] at hih
      by_cases hp : p.id ∈ (ps.map Product.id).toFinset \ seen.toFinset
      · have h1 : (((ps.map Product.id).toFinset \ seen.toFinset).erase p.id).card =
            ((ps.map Product.id).toFinset \ seen.toFinset).card - 1 :=
          Finset.card_erase_of_mem hp
        have h2 : 0 < ((ps.map Product.id).toFinset \ seen.toFinset).card :=
          Finset.card_pos.mpr ⟨p.id, hp⟩
        have h3 : insert p.id ((ps.map Product.id).toFinset \ seen.toFinset) =
            (ps.map Product.id).toFinset \ seen.toFinset :=
          Finset.insert_eq_self.mpr hp
        rw [h3]
        simp only [List.length_cons, hih, h1]
        omega
      · have h1 : ((ps.map Product.id).toFinset \ seen.toFinset).erase p.id =
            (ps.map Product.id).toFinset \ seen.toFinset :=
          Finset.erase_eq_of_not_mem hp
        rw [h1] at hih
        simp only [List.length_cons, hih, Finset.card_insert_of_not_mem hp]

/-- C3 (amended): among the records that pass the price, category and
rating rules (the remaining batch), exactly one instance of each id
survives cleaning; clean_records is the number of distinct ids of that
remaining batch, and duplicates_removed equals its repeated occurrences
(its length minus its distinct-id count). -/
theorem dedup_one_per_id_within_remaining (today : String) (data : List RawRecord) :
    (∀ i : Option Int,
      ((clean_and_validate_data today data).1.map (fun c => c.product.id)).count i =
        if i ∈ ((((data.map toProduct).filter (fun p => !invalidPrice p)).filter
            (fun p => !invalidCategory p)).filter (fun p => !invalidRating p)).map
            Product.id then 1 else 0) ∧
    (clean_and_validate_data today data).2.clean_records =
      (((((data.map toProduct).filter (fun p => !invalidPrice p)).filter
          (fun p => !invalidCategory p)).filter (fun p => !invalidRating p)).map
          Product.id).toFinset.card ∧
    (clean_and_validate_data today data).2.duplicates_removed +
        (clean_and_validate_data today data).2.clean_records =
      ((((data.map toProduct).filter (fun p => !invalidPrice p)).filter
          (fun p => !invalidCategory p)).filter (fun p => !invalidRating p)).length := by
  refine ⟨?_, ?_, ?_⟩
  · intro i
    have hmap : ((clean_and_validate_data today data).1.map (fun c => c.product.id)) =
        ((dropDupId [] ((((data.map toProduct).filter (fun p => !invalidPrice p)).filter
            (fun p => !invalidCategory p)).filter (fun p => !invalidRating p))).map
            Product.id) := by
      simp [clean_and_validate_data, List.map_map]
    rw [hmap, count_map_id_dropDupId]
    simp
  · have h := length_dropDupId_eq_card []
      ((((data.map toProduct).filter (fun p => !invalidPrice p)).filter
        (fun p => !invalidCategory p)).filter (fun p => !invalidRating p))
    simp only [List.toFinset_nil, Finset.sdiff_empty] at h
    simp only [clean_and_validate_data]
    exact h
  · have h4 := dupMarkCount_add_length_dropDupId []
      ((((data.map toProduct).filter (fun p => !invalidPrice p)).filter
        (fun p => !invalidCategory p)).filter (fun p => !invalidRating p))
    simp only [clean_and_validate_data]
    omega

/-! ## Retry loop lemmas -/

/-- The retry loop performs at most `fuel` requests. -/
theorem fetchLoop_requests_le (net : Nat → Outcome) (mr : Nat) :
    ∀ fuel attempt, (fetchLoop net mr attempt fuel).2 ≤ fuel := by
  intro fuel
  induction fuel with
  | zero => intro a; simp [fetchLoop]
  | succ n ih =>
    intro a
    cases h : net a
    case ok d => simp [fetchLoop, h]
    case badJson => simp [fetchLoop, h]
    all_goals
      have := ih (a + 1)
      simp [fetchLoop, h]
      omega

/-- If every attempt before `k` is transient and attempt `k` succeeds,
the loop returns attempt `k`'s data after exactly `k - attempt + 1`
requests. -/
theorem fetchLoop_first_success (net : Nat → Outcome) (mr : Nat) :
    ∀ fuel attempt k d, attempt ≤ k → k < attempt + fuel →
      (∀ j, attempt ≤ j → j < k → isTransient (net j) = true) →
      net k = Outcome.ok d →
      fetchLoop net mr attempt fuel = (.ok d, k - attempt + 1) := by
  intro fuel
  induction fuel with
  | zero => intro a k d h1 h2 _ _; omega
  | succ n ih =>
    intro a k d h1 h2 htr hk
    by_cases hak : a = k
    · subst hak
      simp [fetchLoop, hk]
    · have ha : a < k := lt_of_le_of_ne h1 hak
      have htra := htr a (le_refl a) ha
      cases h : net a with
      | ok d' => rw [h] at htra; simp [isTransient] at htra
      | badJson => rw [h] at htra; simp [isTransient] at htra
      | timeout =>
        have hrec := ih (a + 1) k d (by omega) (by omega)
          (fun j hj1 hj2 => htr j (by omega) hj2) hk
        simp [fetchLoop, h, hrec]
        omega
      | httpError =>
        have hrec := ih (a + 1) k d (by omega) (by omega)
          (fun j hj1 hj2 => htr j (by omega) hj2) hk
        simp [fetchLoop, h, hrec]
        omega
      | requestError =>
        have hrec := ih (a + 1) k d (by omega) (by omega)
          (fun j hj1 hj2 => htr j (by omega) hj2) hk
        simp [fetchLoop, h, hrec]
        omega

/-- If every attempt in the budget is transient, the loop exhausts the
budget: `fuel` requests, then the exhaustion error. -/
theorem fetchLoop_all_transient (net : Nat → Outcome) (mr : Nat) :
    ∀ fuel attempt,
      (∀ j, attempt ≤ j → j < attempt + fuel → isTransient (net j) = true) →
      fetchLoop net mr attempt fuel = (.error (.exhausted mr), fuel) := by
  intro fuel
  induction fuel with
  | zero => intro a _; simp [fetchLoop]
  | succ n ih =>
    intro a htr
    have htra := htr a (le_refl a) (by omega)
    cases h : net a
    case ok d' => rw [h] at htra; simp [isTransient] at htra
    case badJson => rw [h] at htra; simp [isTransient] at htra
    all_goals
      have hrec := ih (a + 1) (fun j hj1 hj2 => htr j (by omega) (by omega))
      simp [fetchLoop, h, hrec]

/-- If every attempt before `k` is transient and attempt `k` returns a
non-JSON body, the loop stops at attempt `k` with the malformed error:
no retry after a parse failure. -/
theorem fetchLoop_first_badJson (net : Nat → Outcome) (mr : Nat) :
    ∀ fuel attempt k, attempt ≤ k → k < attempt + fuel →
      (∀ j, attempt ≤ j → j < k → isTransient (net j) = true) →
      net k = Outcome.badJson →
      fetchLoop net mr attempt fuel = (.error .malformed, k - attempt + 1) := by
  intro fuel
  induction fuel with
  | zero => intro a k h1 h2 _ _; omega
  | succ n ih =>
    intro a k h1 h2 htr hk
    by_cases hak : a = k
    · subst hak
      simp [fetchLoop, hk]
    · have ha : a < k := lt_of_le_of_ne h1 hak
      have htra := htr a (le_refl a) ha
      cases h : net a with
      | ok d' => rw [h] at htra; simp [isTransient] at htra
      | badJson => rw [h] at htra; simp [isTransient] at htra
      | timeout =>
        have hrec := ih (a + 1) k (by omega) (by omega)
          (fun j hj1 hj2 => htr j (by omega) hj2) hk
        simp [fetchLoop, h, hrec]
        omega
      | httpError =>
        have hrec := ih (a + 1) k (by omega) (by omega)
          (fun j hj1 hj2 => htr j (by omega) hj2) hk
        simp [fetchLoop, h, hrec]
        omega
      | requestError =>
        have hrec := ih (a + 1) k (by omega) (by omega)
          (fun j hj1 hj2 => htr j (by omega) hj2) hk
        simp [fetchLoop, h, hrec]
        omega

/-- C5: the fetcher performs at most max_retries requests; it returns the
parsed collection of the first successful attempt without further
attempts; it fails with the exhaustion error (carrying the attempt
budget) and no data after max_retries transient failures; and it fails
immediately, with no retry, on the first attempt whose payload cannot be
parsed as JSON. -/
theorem fetch_retry_contract (net : Nat → Outcome) (max_retries : Nat) :
    ((fetch_data_from_api net max_retries).2 ≤ max_retries) ∧
    (∀ k d, 1 ≤ k → k ≤ max_retries →
      (∀ j, 1 ≤ j → j < k → isTransient (net j) = true) →
      net k = Outcome.ok d →
      fetch_data_from_api net max_retries = (.ok d, k)) ∧
    ((∀ j, 1 ≤ j → j ≤ max_retries → isTransient (net j) = true) →
      fetch_data_from_api net max_retries =
        (.error (.exhausted max_retries), max_retries)) ∧
    (∀ k, 1 ≤ k → k ≤ max_retries →
      (∀ j, 1 ≤ j → j < k → isTransient (net j) = true) →
      net k = Outcome.badJson →
      fetch_data_from_api net max_retries = (.error .malformed, k)) := by
  refine ⟨fetchLoop_requests_le net max_retries max_retries 1, ?_, ?_, ?_⟩
  · intro k d h1 h2 htr hk
    have h := fetchLoop_first_success net max_retries max_retries 1 k d h1
      (by omega) (fun j hj1 hj2 => htr j hj1 hj2) hk
    have hk' : k - 1 + 1 = k := by omega
    rw [hk'] at h
    exact h
  · intro htr
    exact fetchLoop_all_transient net max_retries max_retries 1
      (fun j hj1 hj2 => htr j hj1 (by omega))
  · intro k h1 h2 htr hk
    have h := fetchLoop_first_badJson net max_retries max_retries 1 k h1
      (by omega) (fun j hj1 hj2 => htr j hj1 hj2) hk
    have hk' : k - 1 + 1 = k := by omega
    rw [hk'] at h
    exact h

/-- Witness for C5: concrete networks exercising all four parts of the
retry contract with max_retries = 3. -/
theorem fetch_retry_contract_witness :
    fetch_data_from_api netOkAt2 3 = (.ok [e2eRec1], 2) ∧
    fetch_data_from_api netAllDown 3 = (.error (.exhausted 3), 3) ∧
    fetch_data_from_api netBadAt2 3 = (.error .malformed, 2) ∧
    (fetch_data_from_api netOkAt2 3).2 ≤ 3 := by
  refine ⟨?_, ?_, ?_, ?_⟩
  · exact (fetch_retry_contract netOkAt2 3).2.1 2 [e2eRec1] (by omega) (by omega)
      (fun j hj1 hj2 => by
        have hj : j = 1 := by omega
        subst hj
        rfl) rfl
  · exact (fetch_retry_contract netAllDown 3).2.2.1 (fun j hj1 hj2 => rfl)
  · exact (fetch_retry_contract netBadAt2 3).2.2.2 2 (by omega) (by omega)
      (fun j hj1 hj2 => by
        have hj : j = 1 := by omega
        subst hj
        rfl) rfl
  · exact (fetch_retry_contract netOkAt2 3).1

/-! ## Schema validation, idempotency guard, storage stage -/

/-- C6: the schema validator returns false exactly when the batch is
empty or some required field is absent from the flattened field set of
the first record; it inspects only the first record (the tail is
irrelevant), and only field presence matters, never field values. -/
theorem validate_schema_first_record_presence (required : List String) :
    (validate_schema [] required = false) ∧
    (∀ (r : RawRecord) (rest : List RawRecord),
      validate_schema (r :: rest) required = false ↔
        ∃ f ∈ required, f ∉ presentFields r) ∧
    (∀ (r : RawRecord) (rest rest' : List RawRecord),
      validate_schema (r :: rest) required =
        validate_schema (r :: rest') required) ∧
    (∀ (r r' : RawRecord) (rest rest' : List RawRecord),
      presentFields r = presentFields r' →
      validate_schema (r :: rest) required =
        validate_schema (r' :: rest') required) := by
  refine ⟨rfl, ?_, ?_, ?_⟩
  · intro r rest
    simp [validate_schema]
  · intro r rest rest'
    rfl
  · intro r r' rest rest' h
    simp [validate_schema, h]

/-- Witness for C6: the empty batch fails; a batch whose first record
lacks `title` fails even though the second record has all fields; two
first records with the same present fields validate alike. -/
theorem validate_schema_contract_witness :
    validate_schema [] REQUIRED_FIELDS = false ∧
    validate_schema [missingTitle, dupGood] REQUIRED_FIELDS = false ∧
    validate_schema [dupGood] REQUIRED_FIELDS =
      validate_schema [dupGoodOtherValues] REQUIRED_FIELDS := by
  refine ⟨(validate_schema_first_record_presence REQUIRED_FIELDS).1, ?_, ?_⟩
  · exact ((validate_schema_first_record_presence REQUIRED_FIELDS).2.1
      missingTitle [dupGood]).mpr ⟨"title", by decide, by decide⟩
  · exact (validate_schema_first_record_presence REQUIRED_FIELDS).2.2.2
      dupGood dupGoodOtherValues [] [] (by decide)

/-- C7: the idempotency guard returns false when the table does not
exist, and on an existing table returns true exactly when some stored
row's fetch_date equals the current period. -/
theorem already_ingested_iff (today : String) (rows : List CleanRecord) :
    check_already_ingested_today none today = false ∧
    (check_already_ingested_today (some rows) today = true ↔
      ∃ r ∈ rows, r.fetch_date = today) := by
  refine ⟨rfl, ?_⟩
  simp [check_already_ingested_today, List.countP_pos_iff]

/-- C9: the storage stage's connection trace is acquire-then-release on
every exit path: the idempotency-skip path returning 0, the successful
append path, and the failing append path all produce the same
connect-close trace. -/
theorem store_conn_released_all_paths (db : DB) (df : List CleanRecord)
    (today : String) (w : WriteOutcome) :
    (store_data db df today w).2.2 = [ConnEvent.connect, ConnEvent.close] ∧
    (check_already_ingested_today db today = true →
      (store_data db df today w).1 = .ok 0) ∧
    (check_already_ingested_today db today = false → w = .success →
      (store_data db df today w).1 = .ok df.length) ∧
    (check_already_ingested_today db today = false → ∀ k, w = .failAfter k →
      (store_data db df today w).1 = .error "StorageFailure") := by
  refine ⟨rfl, ?_, ?_, ?_⟩
  · intro h
    simp [store_data, h]
  · intro h hw
    subst hw
    simp [store_data, h]
  · intro h k hw
    subst hw
    simp [store_data, h]

/-- Witness for C9: the three storage exit paths at concrete inputs, each
ending with the connection released. -/
theorem store_conn_released_witness :
    (store_data (some [storedRow]) [storedRow] "2025-01-01" .success).2.2 =
      [ConnEvent.connect, ConnEvent.close] ∧
    (store_data (some [storedRow]) [storedRow] "2025-01-01" .success).1 = .ok 0 ∧
    (store_data none [storedRow] "2025-01-01" .success).1 = .ok 1 ∧
    (store_data none [storedRow] "2025-01-01" (.failAfter 0)).1 =
      .error "StorageFailure" := by
  refine ⟨(store_conn_released_all_paths (some [storedRow]) [storedRow]
      "2025-01-01" .success).1, ?_, ?_, ?_⟩
  · exact (store_conn_released_all_paths (some [storedRow]) [storedRow]
      "2025-01-01" .success).2.1 (by decide)
  · exact (store_conn_released_all_paths none [storedRow]
      "2025-01-01" .success).2.2.1 (by decide) rfl
  · exact (store_conn_released_all_paths none [storedRow]
      "2025-01-01" (.failAfter 0)).2.2.2 (by decide) 0 rfl

/-! ## Orchestrator path characterizations -/

/-- Every clean output row is stamped with the current date. -/
theorem clean_row_fetch_date (today : String) (data : List RawRecord)
    (c : CleanRecord) (hc : c ∈ (clean_and_validate_data today data).1) :
    c.fetch_date = today := by
  simp [clean_and_validate_data, List.mem_map] at hc
  obtain ⟨p, -, rfl⟩ := hc
  rfl

/-- A fetch failure path of the orchestrator. -/
theorem run_pipeline_fetch_err (net : Nat → Outcome) (today : String)
    (db : DB) (w : WriteOutcome) (e : FetchErr)
    (hf : (fetch_data_from_api net MAX_RETRIES).1 = .error e) :
    run_pipeline net today db w =
      (⟨.FAILED, 0, 0, none, some (fetchErrMsg e)⟩, db, some (fetchErrMsg e)) := by
  simp [run_pipeline, hf]

/-- The schema-drift failure path of the orchestrator. -/
theorem run_pipeline_schema_fail (net : Nat → Outcome) (today : String)
    (db : DB) (w : WriteOutcome) (raw : List RawRecord)
    (hf : (fetch_data_from_api net MAX_RETRIES).1 = .ok raw)
    (hv : validate_schema raw REQUIRED_FIELDS = false) :
    run_pipeline net today db w =
      (⟨.FAILED, raw.length, 0, none,
          some "Schema validation failed - API structure may have changed"⟩,
        db, some "Schema validation failed - API structure may have changed") := by
  simp [run_pipeline, hf, hv]

/-- The idempotency-skip path of the orchestrator. -/
theorem run_pipeline_guard_skip (net : Nat → Outcome) (today : String)
    (db : DB) (w : WriteOutcome) (raw : List RawRecord)
    (hf : (fetch_data_from_api net MAX_RETRIES).1 = .ok raw)
    (hv : validate_schema raw REQUIRED_FIELDS = true)
    (hg : check_already_ingested_today db today = true) :
    run_pipeline net today db w =
      (⟨.SKIPPED, raw.length, 0,
          some (clean_and_validate_data today raw).2, none⟩, db, none) := by
  simp [run_pipeline, hf, hv, store_data, hg]

/-- The mid-write storage failure path of the orchestrator. -/
theorem run_pipeline_store_fail (net : Nat → Outcome) (today : String)
    (db : DB) (k : Nat) (raw : List RawRecord)
    (hf : (fetch_data_from_api net MAX_RETRIES).1 = .ok raw)
    (hv : validate_schema raw REQUIRED_FIELDS = true)
    (hg : check_already_ingested_today db today = false) :
    run_pipeline net today db (.failAfter k) =
      (⟨.FAILED, raw.length, 0, some (clean_and_validate_data today raw).2,
          some "StorageFailure"⟩,
        some (Option.getD db [] ++ (clean_and_validate_data today raw).1.take k),
        some "StorageFailure") := by
  simp [run_pipeline, hf, hv, store_data, hg]

/-- The successful-append path of the orchestrator. -/
theorem run_pipeline_store_ok (net : Nat → Outcome) (today : String)
    (db : DB) (raw : List RawRecord)
    (hf : (fetch_data_from_api net MAX_RETRIES).1 = .ok raw)
    (hv : validate_schema raw REQUIRED_FIELDS = true)
    (hg : check_already_ingested_today db today = false) :
    run_pipeline net today db .success =
      (⟨if 0 < (clean_and_validate_data today raw).1.length then .SUCCESS
          else .SKIPPED,
        raw.length, (clean_and_validate_data today raw).1.length,
        some (clean_and_validate_data today raw).2, none⟩,
        some (Option.getD db [] ++ (clean_and_validate_data today raw).1), none) := by
  simp [run_pipeline, hf, hv, store_data, hg]

/-- C4: a run whose store stage returns 0 because the idempotency guard
reports the period already ingested writes nothing and ends SKIPPED; a
run that stores more than 0 records ends SUCCESS; and a second run in
the same period after a successful run stores 0 records and ends
SKIPPED. -/
theorem run_pipeline_skip_success_idempotent (net : Nat → Outcome)
    (today : String) (db : DB) (w : WriteOutcome) :
    (∀ raw, (fetch_data_from_api net MAX_RETRIES).1 = .ok raw →
      validate_schema raw REQUIRED_FIELDS = true →
      check_already_ingested_today db today = true →
      (run_pipeline net today db w).1.status = .SKIPPED ∧
      (run_pipeline net today db w).1.records_stored = 0 ∧
      (run_pipeline net today db w).2.1 = db) ∧
    (0 < (run_pipeline net today db w).1.records_stored →
      (run_pipeline net today db w).1.status = .SUCCESS) ∧
    ((run_pipeline net today db w).1.status = .SUCCESS →
      (run_pipeline net today
          (run_pipeline net today db w).2.1 w).1.status = .SKIPPED ∧
      (run_pipeline net today
          (run_pipeline net today db w).2.1 w).1.records_stored = 0) := by
  refine ⟨?_, ?_, ?_⟩
  · intro raw hf hv hg
    rw [run_pipeline_guard_skip net today db w raw hf hv hg]
    exact ⟨rfl, rfl, rfl⟩
  · cases hf : (fetch_data_from_api net MAX_RETRIES).1 with
    | error e =>
      rw [run_pipeline_fetch_err net today db w e hf]
      intro h
      simp at h
    | ok raw =>
      cases hv : validate_schema raw REQUIRED_FIELDS with
      | false =>
        rw [run_pipeline_schema_fail net today db w raw hf hv]
        intro h
        simp at h
      | true =>
        cases hg : check_already_ingested_today db today with
        | true =>
          rw [run_pipeline_guard_skip net today db w raw hf hv hg]
          intro h
          simp at h
        | false =>
          cases w with
          | failAfter k =>
            rw [run_pipeline_store_fail net today db k raw hf hv hg]
            intro h
            simp at h
          | success =>
            rw [run_pipeline_store_ok net today db raw hf hv hg]
            intro h
            simp only at h ⊢
            rw [if_pos h]
  · intro hs
    cases hf : (fetch_data_from_api net MAX_RETRIES).1 with
    | error e =>
      rw [run_pipeline_fetch_err net today db w e hf] at hs
      simp at hs
    | ok raw =>
      cases hv : validate_schema raw REQUIRED_FIELDS with
      | false =>
        rw [run_pipeline_schema_fail net today db w raw hf hv] at hs
        simp at hs
      | true =>
        cases hg : check_already_ingested_today db today with
        | true =>
          rw [run_pipeline_guard_skip net today db w raw hf hv hg] at hs
          simp at hs
        | false =>
          cases w with
          | failAfter k =>
            rw [run_pipeline_store_fail net today db k raw hf hv hg] at hs
            simp at hs
          | success =>
            rw [run_pipeline_store_ok net today db raw hf hv hg] at hs
            by_cases hn : 0 < (clean_and_validate_data today raw).1.length
            · have hdb : (run_pipeline net today db .success).2.1 =
                  some (Option.getD db [] ++ (clean_and_validate_data today raw).1) := by
                rw [run_pipeline_store_ok net today db raw hf hv hg]
              have hcnt : (clean_and_validate_data today raw).1.countP
                  (fun r => r.fetch_date == today) =
                  (clean_and_validate_data today raw).1.length :=
                List.countP_eq_length.mpr (fun c hcmem => by
                  simp [clean_row_fetch_date today raw c hcmem])
              have hpos : 0 < (Option.getD db []).countP
                    (fun r => r.fetch_date == today) +
                  (clean_and_validate_data today raw).1.countP
                    (fun r => r.fetch_date == today) := by
                rw [hcnt]
                omega
              have hg2 : check_already_ingested_today
                  (some (Option.getD db [] ++ (clean_and_validate_data today raw).1))
                  today = true := by
                simp only [check_already_ingested_today, List.countP_append]
                rw [if_pos hpos]
              rw [hdb, run_pipeline_guard_skip net today
                (some (Option.getD db [] ++ (clean_and_validate_data today raw).1))
                .success raw hf hv hg2]
              exact ⟨rfl, rfl⟩
            · simp [hn] at hs

/-- Witness for C4: a concrete successful run on an empty store, its
SKIPPED re-run in the same period, and a guard-skip run against a store
already holding a row for the period. -/
theorem run_pipeline_skip_success_witness :
    (run_pipeline netRunOk "2025-01-01" none .success).1.status = .SUCCESS ∧
    (run_pipeline netRunOk "2025-01-01"
      (run_pipeline netRunOk "2025-01-01" none .success).2.1
      .success).1.status = .SKIPPED ∧
    (run_pipeline netRunOk "2025-01-01"
      (run_pipeline netRunOk "2025-01-01" none .success).2.1
      .success).1.records_stored = 0 ∧
    (run_pipeline netRunOk "2025-01-01" (some [storedRow])
      .success).1.status = .SKIPPED := by
  have hsucc : (run_pipeline netRunOk "2025-01-01" none .success).1.status =
      .SUCCESS :=
    (run_pipeline_skip_success_idempotent netRunOk "2025-01-01"
      none .success).2.1 (by decide)
  have hsecond := (run_pipeline_skip_success_idempotent netRunOk "2025-01-01"
    none .success).2.2 hsucc
  have hguard := (run_pipeline_skip_success_idempotent netRunOk "2025-01-01"
    (some [storedRow]) .success).1 [dupGood] rfl (by decide) (by decide)
  exact ⟨hsucc, hsecond.1, hsecond.2, hguard.1⟩

/-- C8: the orchestrator re-raises exactly when the result records
FAILED; whenever an exception is re-raised its message is also recorded
as the result's error_message; a FAILED result always credits zero
stored records; and a mid-write storage failure yields FAILED with zero
records credited and the storage exception re-raised. -/
theorem run_pipeline_failures_recorded (net : Nat → Outcome) (today : String)
    (db : DB) (w : WriteOutcome) :
    ((run_pipeline net today db w).2.2.isSome = true ↔
      (run_pipeline net today db w).1.status = .FAILED) ∧
    (∀ e, (run_pipeline net today db w).2.2 = some e →
      (run_pipeline net today db w).1.error_message = some e) ∧
    ((run_pipeline net today db w).1.status = .FAILED →
      (run_pipeline net today db w).1.records_stored = 0) ∧
    (∀ raw k, (fetch_data_from_api net MAX_RETRIES).1 = .ok raw →
      validate_schema raw REQUIRED_FIELDS = true →
      check_already_ingested_today db today = false →
      (run_pipeline net today db (.failAfter k)).1.status = .FAILED ∧
      (run_pipeline net today db (.failAfter k)).1.records_stored = 0 ∧
      (run_pipeline net today db (.failAfter k)).2.2 = some "StorageFailure") := by
  refine ⟨?_, ?_, ?_, ?_⟩
  · cases hf : (fetch_data_from_api net MAX_RETRIES).1 with
    | error e => rw [run_pipeline_fetch_err net today db w e hf]; simp
    | ok raw =>
      cases hv : validate_schema raw REQUIRED_FIELDS with
      | false => rw [run_pipeline_schema_fail net today db w raw hf hv]; simp
      | true =>
        cases hg : check_already_ingested_today db today with
        | true => rw [run_pipeline_guard_skip net today db w raw hf hv hg]; simp
        | false =>
          cases w with
          | failAfter k =>
            rw [run_pipeline_store_fail net today db k raw hf hv hg]
            simp
          | success =>
            rw [run_pipeline_store_ok net today db raw hf hv hg]
            simp only [Option.isSome_none]
            constructor
            · intro h
              simp at h
            · intro h
              split at h <;> simp at h
  · intro e he
    cases hf : (fetch_data_from_api net MAX_RETRIES).1 with
    | error e' =>
      rw [run_pipeline_fetch_err net today db w e' hf] at he ⊢
      simpa using he
    | ok raw =>
      cases hv : validate_schema raw REQUIRED_FIELDS with
      | false =>
        rw [run_pipeline_schema_fail net today db w raw hf hv] at he ⊢
        simpa using he
      | true =>
        cases hg : check_already_ingested_today db today with
        | true =>
          rw [run_pipeline_guard_skip net today db w raw hf hv hg] at he
          simp at he
        | false =>
          cases w with
          | failAfter k =>
            rw [run_pipeline_store_fail net today db k raw hf hv hg] at he ⊢
            simpa using he
          | success =>
            rw [run_pipeline_store_ok net today db raw hf hv hg] at he
            simp at he
  · cases hf : (fetch_data_from_api net MAX_RETRIES).1 with
    | error e =>
      rw [run_pipeline_fetch_err net today db w e hf]
      intro _
      rfl
    | ok raw =>
      cases hv : validate_schema raw REQUIRED_FIELDS with
      | false =>
        rw [run_pipeline_schema_fail net today db w raw hf hv]
        intro _
        rfl
      | true =>
        cases hg : check_already_ingested_today db today with
        | true =>
          rw [run_pipeline_guard_skip net today db w raw hf hv hg]
          intro _
          rfl
        | false =>
          cases w with
          | failAfter k =>
            rw [run_pipeline_store_fail net today db k raw hf hv hg]
            intro _
            rfl
          | success =>
            rw [run_pipeline_store_ok net today db raw hf hv hg]
            intro h
            exfalso
            split at h <;> simp at h
  · intro raw k hf hv hg
    rw [run_pipeline_store_fail net today db k raw hf hv hg]
    exact ⟨rfl, rfl, rfl⟩

/-- Witness for C8: a concrete run whose write raises mid-append ends
FAILED with zero records credited, records the storage message, and
re-raises. -/
theorem run_pipeline_failures_witness :
    (run_pipeline netRunOk "2025-01-01" none (.failAfter 0)).1.status = .FAILED ∧
    (run_pipeline netRunOk "2025-01-01" none (.failAfter 0)).1.records_stored = 0 ∧
    (run_pipeline netRunOk "2025-01-01" none (.failAfter 0)).1.error_message =
      some "StorageFailure" ∧
    (run_pipeline netRunOk "2025-01-01" none
      (.failAfter 0)).2.2.isSome = true := by
  have h := run_pipeline_failures_recorded netRunOk "2025-01-01" none (.failAfter 0)
  have hstore := h.2.2.2 [dupGood] 0 rfl (by decide) (by decide)
  exact ⟨hstore.1, h.2.2.1 hstore.1, h.2.1 "StorageFailure" hstore.2.2,
    h.1.mpr hstore.1⟩
